import Mathlib

/-!
Shallow embedding of the AgriGuard API orchestrator (`src/api/api_orchestrator.py`),
the retrieval context builder (`src/rag/rag_service_simple.py`), and the stress-index
calculator, together with theorems settling the frozen claims about them.

The network is modelled explicitly: each upstream HTTP call either fails at the
transport level (an exception from the HTTP client) or yields a response carrying a
status code and a body.  A body is `none` when `response.json()` would raise (the
bytes are not valid JSON) and `some b` when it parses to the structured value `b`.
URL construction, headers and timeouts do not affect the control flow under
verification and are not modelled.  A JSON object field that is absent is `none`;
JSON `null` values are not distinguished from absent fields.
-/

namespace AgriGuard

/-- Result of one HTTP request to one concrete address: either a transport-level
failure (connection error, timeout — anything `httpx` raises before a response
exists) or a response with a status code and a parse of its body (`none` when the
body is not valid JSON, so that `response.json()` raises). -/
inductive UpstreamResult (α : Type) where
  | transportError : UpstreamResult α
  | response (status : Nat) (body : Option α) : UpstreamResult α
  deriving DecidableEq

/-- `httpx` `raise_for_status` raises exactly when the status is not 2xx. -/
def isSuccess (status : Nat) : Bool :=
  decide (200 ≤ status ∧ status < 300)

/-- The dual-address pattern of every orchestrator call: `try` the primary address
and, only when it raises at transport level, `except:` retry the local fallback
address once.  `none` means both addresses failed at transport level. -/
def tryFallback {α : Type} (primary fallback : UpstreamResult α) : Option (Nat × Option α) :=
  match primary with
  | .response status body => some (status, body)
  | .transportError =>
    match fallback with
    | .response status body => some (status, body)
    | .transportError => none

/-! ## Health check (`health_check`, `api_orchestrator.py` lines 19-45)

Each dependency's state is the pair of outcomes its two addresses would produce:
`none` is a transport failure, `some code` a response with that status code (the
health probe reads only the status code).  `clientError` models a hard exception
raised by the enclosing `try` before the probes run (e.g. constructing the client). -/

structure HealthWorld where
  mcsiPrimary : Option Nat
  mcsiLocal : Option Nat
  yieldPrimary : Option Nat
  yieldLocal : Option Nat
  clientError : Option String
  deriving DecidableEq

/-- The JSON object returned by the health endpoint: in the normal case the per-service
fields are populated and `error` is absent; in the hard-exception case only `status`
and `error` are present. -/
structure HealthReport where
  status : String
  mcsiService : Option String
  yieldService : Option String
  error : Option String
  deriving DecidableEq

/-- The probe the code performs for one dependency: the primary address is tried
first; the fallback is consulted only when the primary raises at transport level
(`except:`), never when the primary answers with a non-200 status. -/
def checkDependency (primary fallback : Option Nat) : Bool :=
  match primary with
  | some code => code == 200
  | none =>
    match fallback with
    | some code => code == 200
    | none => false

/-- Embedding of the `/health` endpoint (lines 19-45). -/
def health_check (w : HealthWorld) : HealthReport :=
  match w.clientError with
  | some e => { status := "unhealthy", mcsiService := none, yieldService := none, error := some e }
  | none =>
    let mcsiHealth := checkDependency w.mcsiPrimary w.mcsiLocal
    let yieldHealth := checkDependency w.yieldPrimary w.yieldLocal
    { status := if mcsiHealth && yieldHealth then "healthy" else "degraded"
      mcsiService := some (if mcsiHealth then "healthy" else "unhealthy")
      yieldService := some (if yieldHealth then "healthy" else "unhealthy")
      error := none }

/-- An address answers with HTTP 200 (regardless of whether the code ever
contacts that address). -/
def respondsOk (addr : Option Nat) : Prop := addr = some 200

/-- The claim's reading of "responds with HTTP 200 on their primary or their
fallback address": a plain disjunction over the two addresses. -/
def claimBothOk (w : HealthWorld) : Prop :=
  (respondsOk w.mcsiPrimary ∨ respondsOk w.mcsiLocal) ∧
    (respondsOk w.yieldPrimary ∨ respondsOk w.yieldLocal)

/-- The condition the code actually implements for one dependency: 200 on the
primary, or a transport failure on the primary followed by 200 on the fallback. -/
def dependencyUp (primary fallback : Option Nat) : Prop :=
  primary = some 200 ∨ (primary = none ∧ fallback = some 200)

/-- A dependency state in which the MCSI primary address answers 500 while its
fallback and both forecast addresses answer 200, with no hard exception. -/
def healthWorldCx : HealthWorld :=
  { mcsiPrimary := some 500, mcsiLocal := some 200
    yieldPrimary := some 200, yieldLocal := some 200, clientError := none }

/-! ## Single-entity MCSI endpoints (`api_orchestrator.py` lines 47-82) -/

/-- What an orchestrator endpoint hands back to its caller: the upstream payload,
or an `HTTPException` with a status code and a detail string. -/
inductive McsiOutcome (α : Type) where
  | ok (payload : α) : McsiOutcome α
  | httpError (status : Nat) (detail : String) : McsiOutcome α
  deriving DecidableEq

/-- Embedding of `GET /mcsi/{fips}` (lines 71-82): primary address, fallback on
transport failure, `raise_for_status`, `response.json()`; every failure path is
caught by the enclosing handler and surfaced as `503 "MCSI unavailable"`. -/
def get_mcsi {α : Type} (primary fallback : UpstreamResult α) : McsiOutcome α :=
  match tryFallback primary fallback with
  | none => .httpError 503 "MCSI unavailable"
  | some (status, body) =>
    if isSuccess status then
      match body with
      | some payload => .ok payload
      | none => .httpError 503 "MCSI unavailable"
    else
      .httpError 503 "MCSI unavailable"

/-- Embedding of `GET /mcsi/{fips}/timeseries` (lines 47-69).  The query parameters
(`start_date`, `end_date`, `limit`) only select the URL and are not modelled; the
control flow is the same dual-address fetch as `get_mcsi`, with every failure path
collapsing to `503 "MCSI unavailable"`. -/
def get_mcsi_timeseries {α : Type} (primary fallback : UpstreamResult α) : McsiOutcome α :=
  match tryFallback primary fallback with
  | none => .httpError 503 "MCSI unavailable"
  | some (status, body) =>
    if isSuccess status then
      match body with
      | some payload => .ok payload
      | none => .httpError 503 "MCSI unavailable"
    else
      .httpError 503 "MCSI unavailable"

/-! ## Composite yield forecast (`get_yield_forecast`, `api_orchestrator.py` lines 84-134) -/

/-- The `indicators` sub-object of one timeseries entry.  A field the upstream
object lacks is `none`; the code substitutes a default via `dict.get`. -/
structure Indicators where
  water_deficit_mean : Option Rat
  lst_mean : Option Rat
  ndvi_mean : Option Rat
  vpd_mean : Option Rat
  precipitation_mean : Option Rat
  deriving DecidableEq

/-- The indicators object with every field absent; `item.get("indicators", {})`
produces it when the key is missing. -/
def Indicators.empty : Indicators := ⟨none, none, none, none, none⟩

/-- One entry of the upstream timeseries JSON. -/
structure TsItem where
  week_of_season : Option Int
  indicators : Option Indicators
  deriving DecidableEq

/-- The parsed timeseries body: either a JSON array of entries or a single object,
which the code wraps into a one-element list (`if not isinstance(timeseries, list)`). -/
inductive TsBody where
  | array (items : List TsItem) : TsBody
  | object (item : TsItem) : TsBody
  deriving DecidableEq

/-- The list the code iterates after the `isinstance` wrapping (lines 94-95). -/
def TsBody.toItems : TsBody → List TsItem
  | .array items => items
  | .object item => [item]

/-- `item.get("week_of_season", 0)` — the defaulted week of one entry. -/
def weekOf (item : TsItem) : Int := item.week_of_season.getD 0

/-- Python's `int()` applied to a numeric value: truncation toward zero. -/
def pyInt (q : Rat) : Int := Int.tdiv q.num q.den

/-- The fixed five-field sub-schema of one `raw_data` entry (lines 104-110). -/
structure RawEntry where
  water_deficit_mean : Rat
  lst_days_above_32C : Int
  ndvi_mean : Rat
  vpd_mean : Rat
  pr_sum : Rat
  deriving DecidableEq

/-- The entry built for one timeseries item (lines 102-110): `dict.get` defaults of
0 for the water-deficit, vapor-pressure-deficit and precipitation means, 0.5 for the
vegetation-index mean, and an `int()` cast of the defaulted land-surface-temperature
mean for the "heat-day" count. -/
def rawEntry (item : TsItem) : RawEntry :=
  let ind := item.indicators.getD Indicators.empty
  { water_deficit_mean := ind.water_deficit_mean.getD 0
    lst_days_above_32C := pyInt (ind.lst_mean.getD 0)
    ndvi_mean := ind.ndvi_mean.getD (1/2)
    vpd_mean := ind.vpd_mean.getD 0
    pr_sum := ind.precipitation_mean.getD 0 }

/-- Python dict assignment `d[k] = v` on a dict whose pairs are kept in insertion
order: replace the value at an existing key in place, otherwise append. -/
def dictInsert : List (String × RawEntry) → String → RawEntry → List (String × RawEntry)
  | [], k, v => [(k, v)]
  | p :: rest, k, v => if p.1 = k then (k, v) :: rest else p :: dictInsert rest k v

/-- Python dict access `d[k]` (first pair with the key; the insertion discipline
keeps keys unique, so it is also the only one). -/
def dictFind : List (String × RawEntry) → String → Option RawEntry
  | [], _ => none
  | p :: rest, k => if p.1 = k then some p.2 else dictFind rest k

/-- One iteration of the `raw_data` loop: `raw_data[str(w)] = {...}` (lines 102-110). -/
def rawStep (d : List (String × RawEntry)) (item : TsItem) : List (String × RawEntry) :=
  dictInsert d (toString (weekOf item)) (rawEntry item)

/-- The `raw_data` dict built by the loop over the filtered timeseries
(lines 100-110), keyed by `str(week)`. -/
def buildRawData (items : List TsItem) : List (String × RawEntry) :=
  items.foldl rawStep []

/-- Python `max` over a sequence: `none` models the `ValueError` it raises on an
empty sequence. -/
def maxWeek : List Int → Option Int
  | [] => none
  | w :: ws => some (ws.foldl max w)

/-- `week if week else max(...)` (line 97): the explicit parameter is used only when
it is present and truthy, i.e. nonzero; otherwise the defaulted maximum week. -/
def currentWeek (week : Option Int) (weeks : List Int) : Option Int :=
  match week with
  | some w => if w ≠ 0 then some w else maxWeek weeks
  | none => maxWeek weeks

/-- The body the orchestrator posts to the forecasting collaborator (line 112). -/
structure ForecastRequest where
  fips : String
  current_week : Int
  year : Int
  raw_data : List (String × RawEntry)
  deriving DecidableEq

/-- Lines 97-112: derive `current_week`, filter the timeseries to defaulted weeks
`≤ current_week`, build `raw_data`, and assemble the outbound request.  `none`
models the `ValueError` from `max` on an empty sequence. -/
def forecastRequest (fips : String) (week : Option Int) (body : TsBody) : Option ForecastRequest :=
  match currentWeek week (body.toItems.map weekOf) with
  | none => none
  | some cw =>
    some { fips := fips, current_week := cw, year := 2025
           raw_data := buildRawData (body.toItems.filter (fun item => weekOf item ≤ cw)) }

/-- The parsed body of a successful forecasting-collaborator response; each field
the payload lacks is `none`. -/
structure ForecastBody where
  yield_forecast_bu_acre : Option Rat
  forecast_uncertainty : Option Rat
  confidence_interval_lower : Option Rat
  confidence_interval_upper : Option Rat
  primary_driver : Option String
  model_r2 : Option Rat
  deriving DecidableEq

/-- The JSON object `get_yield_forecast` returns on success (lines 122-131). -/
structure YieldResponse where
  fips : String
  week : Int
  predicted_yield : Option Rat
  confidence_interval : Rat
  confidence_lower : Option Rat
  confidence_upper : Option Rat
  primary_driver : String
  model_r2 : Rat
  deriving DecidableEq

/-- The final assembly step (lines 122-131): forecast fields merged with `dict.get`
fallbacks — 0.31 for `forecast_uncertainty`, 0.835 for `model_r2`, `"unknown"` for
`primary_driver` — and pass-through `None` for the other optional fields. -/
def assembleResponse (fips : String) (cw : Int) (y : ForecastBody) : YieldResponse :=
  { fips := fips
    week := cw
    predicted_yield := y.yield_forecast_bu_acre
    confidence_interval := y.forecast_uncertainty.getD (31/100)
    confidence_lower := y.confidence_interval_lower
    confidence_upper := y.confidence_interval_upper
    primary_driver := y.primary_driver.getD "unknown"
    model_r2 := y.model_r2.getD (167/200) }

/-- The exception that reached the handler at lines 132-134; each constructor stands
for the text `str(e)` of one exception class the body can raise. -/
inductive YieldFailure where
  | tsTransport : YieldFailure
  | tsStatus (code : Nat) : YieldFailure
  | tsBadJson : YieldFailure
  | emptyMax : YieldFailure
  | fcTransport : YieldFailure
  | fcStatus (code : Nat) : YieldFailure
  | fcBadJson : YieldFailure
  deriving DecidableEq

/-- Outcome of the `/yield/{fips}` endpoint: the assembled response, or an
`HTTPException` whose detail is the text of the exception that was caught. -/
inductive YieldOutcome where
  | ok (body : YieldResponse) : YieldOutcome
  | httpError (status : Nat) (cause : YieldFailure) : YieldOutcome
  deriving DecidableEq

/-- The network state one `/yield/{fips}` request runs against: both addresses of
the timeseries fetch and both addresses of the forecast call. -/
structure YieldWorld where
  tsPrimary : UpstreamResult TsBody
  tsLocal : UpstreamResult TsBody
  fcPrimary : UpstreamResult ForecastBody
  fcLocal : UpstreamResult ForecastBody

/-- Embedding of `GET /yield/{fips}` (lines 84-134): dual-address timeseries fetch,
`raise_for_status`, week derivation and filtering, `raw_data` construction,
dual-address forecast call, `raise_for_status`, response assembly; every exception
is caught by the single handler and surfaced as HTTP 500 with the exception text. -/
def get_yield_forecast (fips : String) (week : Option Int) (w : YieldWorld) : YieldOutcome :=
  match tryFallback w.tsPrimary w.tsLocal with
  | none => .httpError 500 .tsTransport
  | some (status, body) =>
    if isSuccess status then
      match body with
      | none => .httpError 500 .tsBadJson
      | some tsBody =>
        match forecastRequest fips week tsBody with
        | none => .httpError 500 .emptyMax
        | some req =>
          match tryFallback w.fcPrimary w.fcLocal with
          | none => .httpError 500 .fcTransport
          | some (fstatus, fbody) =>
            if isSuccess fstatus then
              match fbody with
              | none => .httpError 500 .fcBadJson
              | some y => .ok (assembleResponse fips req.current_week y)
            else
              .httpError 500 (.fcStatus fstatus)
    else
      .httpError 500 (.tsStatus status)

/-! ## Retrieval context builder (`rag_service_simple.py` lines 75-88) -/

/-- `n_results=5` passed to `collection.query` (line 77): the retrieval collaborator
returns at most this many ranked documents. -/
def snippetLimit : Nat := 5

/-- The character budget of `doc[:500]` (line 83). -/
def snippetBudget : Nat := 500

/-- One element of `retrieved_contexts`: the truncated document text and its
similarity score.  A Python string is modelled as its sequence of code points,
since Python slicing (`doc[:500]`) counts code points. -/
structure RetrievedContext where
  text : List Char
  score : Rat
  deriving DecidableEq

/-- Embedding of the context-building loop (lines 79-85): zip the ranked documents
with their distances, truncate each document to the character budget, and convert
each distance to a similarity score as `1 - distance`. -/
def chatContexts (documents : List (List Char)) (distances : List Rat) : List RetrievedContext :=
  (documents.zip distances).map fun p => { text := p.1.take snippetBudget, score := 1 - p.2 }

/-! ## Stress index calculator

`calculate_water_stress` and `calculate_mcsi` live in `ml_models/mcsi/mcsi_algorithm.py`,
which is not part of the sources under verification (only its test suite
`src/tests/test_mcsi.py` is); the definitions below are reconstructed from the
specification's statement of the policies, and are consistent with every
assertion of that test suite. -/

/-- Modelled from the spec: `calculate_water_stress` of `ml_models/mcsi/mcsi_algorithm.py`
is missing from the sources; this follows the spec's water-stress policy (deficit in
millimeters): `deficit < 0 → 0`; `0 ≤ deficit < 2 → 20`; `2 ≤ deficit ≤ 4 → 50`;
`4 < deficit < 6 → 75`; `deficit ≥ 6 → 100`; during pollination the result is
multiplied by 1.5 and then clamped to 100. -/
def calculate_water_stress (deficit_mm : Rat) (is_pollination : Bool) : Rat :=
  let base : Rat :=
    if deficit_mm < 0 then 0
    else if deficit_mm < 2 then 20
    else if deficit_mm ≤ 4 then 50
    else if deficit_mm < 6 then 75
    else 100
  if is_pollination then min (base * (3/2)) 100 else base

/-- Clamping of one stress component into `[0,100]`, per the spec's requirement that
out-of-domain component inputs are clamped before weighting. -/
def clampScore (x : Rat) : Rat := max 0 (min 100 x)

/-- Modelled from the spec: `calculate_mcsi` of `ml_models/mcsi/mcsi_algorithm.py`
is missing from the sources; this follows the spec's composite rule — the weighted
sum of the four clamped components with fixed weights water 0.40, heat 0.30,
vegetation 0.20, atmospheric 0.10. -/
def calculate_mcsi (water_stress heat_stress vegetation_stress atmospheric_stress : Rat) : Rat :=
  (2/5) * clampScore water_stress + (3/10) * clampScore heat_stress +
    (1/5) * clampScore vegetation_stress + (1/10) * clampScore atmospheric_stress

/-! ## Concrete fixtures used by counterexamples and witnesses -/

/-- A one-entry timeseries whose only entry is week 5 with no indicators object. -/
def tsWeekFive : TsBody := .array [{ week_of_season := some 5, indicators := none }]

/-- A forecast payload that omits every optional field. -/
def emptyForecastBody : ForecastBody := ⟨none, none, none, none, none, none⟩

/-- A network state in which every address answers 200: the timeseries body is
`tsWeekFive` and the forecast body omits every field. -/
def worldAllOk : YieldWorld :=
  { tsPrimary := .response 200 (some tsWeekFive)
    tsLocal := .response 200 (some tsWeekFive)
    fcPrimary := .response 200 (some emptyForecastBody)
    fcLocal := .response 200 (some emptyForecastBody) }

/-- A week-3 timeseries entry carrying a water-deficit mean of 2 and a
land-surface-temperature mean of 33, with the other indicators absent. -/
def itemWeekThree : TsItem :=
  { week_of_season := some 3
    indicators := some { water_deficit_mean := some 2, lst_mean := some 33
                         ndvi_mean := none, vpd_mean := none, precipitation_mean := none } }

/-! ## Helper lemmas -/

theorem checkDependency_iff (p f : Option Nat) :
    checkDependency p f = true ↔ dependencyUp p f := by
  cases p with
  | some c => simp [checkDependency, dependencyUp]
  | none =>
    cases f with
    | some c => simp [checkDependency, dependencyUp]
    | none => simp [checkDependency, dependencyUp]

/-! ## Claim C1 — health aggregation -/

/-- C1, counterexample: a dependency state in which the MCSI service answers 200 on
its fallback address (and the forecast service answers 200 on its primary), so the
claim's condition "both dependencies respond with HTTP 200 on their primary or
their fallback address" holds, yet the endpoint reports `degraded`: the code never
consults the fallback when the primary answers with a non-200 status. -/
theorem C1_counterexample :
    claimBothOk healthWorldCx ∧ (health_check healthWorldCx).status = "degraded" ∧
      (health_check healthWorldCx).status ≠ "healthy" := by
  refine ⟨⟨Or.inr rfl, Or.inl rfl⟩, rfl, by decide⟩

/-- C1, amended: with no hard exception, the health endpoint reports `healthy` iff
each dependency answers 200 on its primary address or fails at transport level on
the primary and answers 200 on the fallback; it reports `degraded` exactly
otherwise (in particular when a dependency is unreachable on both addresses); and a
hard exception while attempting the check yields `unhealthy` with the exception
text attached.  The endpoint is a total function: it never raises. -/
theorem C1_health_amended (w : HealthWorld) :
    (w.clientError = none →
      ((health_check w).status = "healthy" ↔
        dependencyUp w.mcsiPrimary w.mcsiLocal ∧ dependencyUp w.yieldPrimary w.yieldLocal) ∧
      ((health_check w).status = "degraded" ↔
        ¬(dependencyUp w.mcsiPrimary w.mcsiLocal ∧ dependencyUp w.yieldPrimary w.yieldLocal))) ∧
    (∀ e, w.clientError = some e →
      health_check w =
        { status := "unhealthy", mcsiService := none, yieldService := none, error := some e }) := by
  constructor
  · intro hc
    have hmc := checkDependency_iff w.mcsiPrimary w.mcsiLocal
    have hyc := checkDependency_iff w.yieldPrimary w.yieldLocal
    simp only [health_check, hc]
    cases hm : checkDependency w.mcsiPrimary w.mcsiLocal <;>
      cases hy : checkDependency w.yieldPrimary w.yieldLocal <;>
        simp_all
  · intro e he
    simp [health_check, he]

/-- C1, witness: with both primaries answering 200 and no hard exception, the
amended theorem yields status `healthy`. -/
theorem C1_witness :
    (health_check ⟨some 200, some 200, some 200, some 200, none⟩).status = "healthy" :=
  ((C1_health_amended ⟨some 200, some 200, some 200, some 200, none⟩).1 rfl).1.mpr
    ⟨Or.inl rfl, Or.inl rfl⟩

/-! ## Claim C2 — per-call fallback retry and fallback transparency -/

theorem get_yield_forecast_fc_congr (fips : String) (wk : Option Int)
    (tp tl : UpstreamResult TsBody) (fp fl fp' fl' : UpstreamResult ForecastBody)
    (h : tryFallback fp fl = tryFallback fp' fl') :
    get_yield_forecast fips wk ⟨tp, tl, fp, fl⟩ = get_yield_forecast fips wk ⟨tp, tl, fp', fl'⟩ := by
  unfold get_yield_forecast
  simp only [h]

/-- C2: on transport failure of the primary the call retries exactly once against
the local fallback and otherwise never consults it — (1) a primary transport
failure followed by a successful fallback response yields the fallback's payload
unchanged; (2) when the primary answers (with any status), the fallback address is
irrelevant to the outcome; (3) when both addresses fail at transport level the
error is surfaced; (4) and (5) inside the composite forecast each of the two
collaborator calls applies its fallback independently and transparently: replacing
a transport-failed primary by its answering fallback leaves the endpoint's
behaviour unchanged. -/
theorem C2_fallback_retry {α : Type} (s : Nat) (b : α) (hs : isSuccess s = true) :
    get_mcsi .transportError (.response s (some b)) = .ok b ∧
    (∀ sb : Option α, ∀ l₁ l₂ : UpstreamResult α,
      get_mcsi (.response s sb) l₁ = get_mcsi (.response s sb) l₂) ∧
    get_mcsi (α := α) .transportError .transportError = .httpError 503 "MCSI unavailable" ∧
    (∀ fips wk (s' : Nat) (ts : Option TsBody) (tl : UpstreamResult TsBody) fp fl,
      get_yield_forecast fips wk ⟨.transportError, .response s' ts, fp, fl⟩ =
        get_yield_forecast fips wk ⟨.response s' ts, tl, fp, fl⟩) ∧
    (∀ fips wk (tp tl : UpstreamResult TsBody) (s' : Nat) (fb : Option ForecastBody) fl,
      get_yield_forecast fips wk ⟨tp, tl, .transportError, .response s' fb⟩ =
        get_yield_forecast fips wk ⟨tp, tl, .response s' fb, fl⟩) := by
  refine ⟨?_, fun sb l₁ l₂ => rfl, rfl, fun fips wk s' ts tl fp fl => rfl,
    fun fips wk tp tl s' fb fl => get_yield_forecast_fc_congr fips wk tp tl _ _ _ _ rfl⟩
  simp [get_mcsi, tryFallback, hs]

/-- C2, witness: a transport-failed primary with a 200 fallback carrying the
one-entry timeseries yields that payload unchanged. -/
theorem C2_witness :
    get_mcsi .transportError (.response 200 (some tsWeekFive)) = .ok tsWeekFive :=
  (C2_fallback_retry 200 tsWeekFive (by decide)).1

/-! ## Claim C3 — failure-mode classification -/

/-- C3, counterexample: the three failure modes the claim requires to be
distinguishable — both addresses transport-failed, upstream reachable with a
non-success status, and success status with a body `response.json()` rejects — all
surface from the timeseries endpoint as the byte-identical error response
`503 "MCSI unavailable"`. -/
theorem C3_counterexample :
    get_mcsi_timeseries (α := TsBody) .transportError .transportError =
        .httpError 503 "MCSI unavailable" ∧
    get_mcsi_timeseries (α := TsBody) (.response 500 (some tsWeekFive)) .transportError =
        .httpError 503 "MCSI unavailable" ∧
    get_mcsi_timeseries (α := TsBody) (.response 200 none) .transportError =
        .httpError 503 "MCSI unavailable" := by
  refine ⟨rfl, by decide, rfl⟩

/-- C3, amended: the orchestrator does not classify upstream failures. Every
failure mode of the timeseries endpoint — transport failure on both addresses,
non-success upstream status, or unparseable body — collapses to the single error
response `503 "MCSI unavailable"`, and every failure mode of the composite
forecast endpoint surfaces as HTTP 500 (with the caught exception's text as
detail); neither endpoint emits distinct classifications for the three modes. -/
theorem C3_amended_uniform_errors :
    (∀ (α : Type) (p l : UpstreamResult α),
      (∃ b, get_mcsi_timeseries p l = .ok b) ∨
        get_mcsi_timeseries p l = .httpError 503 "MCSI unavailable") ∧
    (∀ fips wk w,
      (∃ r, get_yield_forecast fips wk w = .ok r) ∨
        ∃ c, get_yield_forecast fips wk w = .httpError 500 c) := by
  constructor
  · intro α p l
    unfold get_mcsi_timeseries
    rcases tryFallback p l with _ | ⟨s, b⟩
    · right; rfl
    · by_cases hs : isSuccess s = true
      · rcases b with _ | payload
        · right; simp [hs]
        · left; exact ⟨payload, by simp [hs]⟩
      · right; simp [hs]
  · intro fips wk w
    unfold get_yield_forecast
    rcases tryFallback w.tsPrimary w.tsLocal with _ | ⟨s, b⟩
    · right; exact ⟨_, rfl⟩
    · by_cases hs : isSuccess s = true
      · rcases b with _ | tsBody
        · right; exact ⟨.tsBadJson, by simp [hs]⟩
        · rcases hreq : forecastRequest fips wk tsBody with _ | req
          · right; exact ⟨.emptyMax, by simp [hs, hreq]⟩
          · rcases tryFallback w.fcPrimary w.fcLocal with _ | ⟨fs, fb⟩
            · right; exact ⟨.fcTransport, by simp [hs, hreq]⟩
            · by_cases hfs : isSuccess fs = true
              · rcases fb with _ | y
                · right; exact ⟨.fcBadJson, by simp [hs, hreq, hfs]⟩
                · left
                  exact ⟨assembleResponse fips req.current_week y, by simp [hs, hreq, hfs]⟩
              · right; exact ⟨.fcStatus fs, by simp [hs, hreq, hfs]⟩
      · right; exact ⟨.tsStatus s, by simp [hs]⟩

/-! ## Claim C4 — current-week derivation and filtering -/

/-- C4, counterexample: a caller who explicitly supplies the week query parameter
`0` does not get `current_week = 0` — `week if week else max(...)` treats the
falsy `0` like an absent parameter, so the endpoint uses the maximum observed week
(5) instead. -/
theorem C4_counterexample :
    get_yield_forecast "19001" (some 0) worldAllOk =
      .ok { fips := "19001", week := 5, predicted_yield := none
            confidence_interval := 31/100, confidence_lower := none, confidence_upper := none
            primary_driver := "unknown", model_r2 := 167/200 } ∧
    (5 : Int) ≠ 0 ∧ (some 0 : Option Int) ≠ (none : Option Int) := by
  refine ⟨rfl, by decide, by decide⟩

/-- C4, amended: `current_week` equals the caller's explicit week parameter when
one is supplied and it is nonzero; when the parameter is absent — or supplied as
the falsy value `0` — it is the maximum of the entries' `week_of_season` values
(each defaulting to 0 when the key is missing); and the entries handed to feature
construction are exactly those whose defaulted `week_of_season` is `≤ current_week`. -/
theorem C4_week_filter_amended :
    (∀ fips (wv : Int) body req, wv ≠ 0 →
      forecastRequest fips (some wv) body = some req → req.current_week = wv) ∧
    (∀ fips body, forecastRequest fips (some 0) body = forecastRequest fips none body) ∧
    (∀ fips body req, forecastRequest fips none body = some req →
      maxWeek (body.toItems.map weekOf) = some req.current_week) ∧
    (∀ fips wk body req, forecastRequest fips wk body = some req →
      req.raw_data =
        buildRawData (body.toItems.filter (fun item => weekOf item ≤ req.current_week))) := by
  refine ⟨?_, ?_, ?_, ?_⟩
  · intro fips wv body req hwv h
    simp only [forecastRequest, currentWeek, if_pos hwv] at h
    cases h
    rfl
  · intro fips body
    rfl
  · intro fips body req h
    simp only [forecastRequest, currentWeek] at h
    rcases hmw : maxWeek (body.toItems.map weekOf) with _ | cw
    · rw [hmw] at h; cases h
    · rw [hmw] at h; cases h; rfl
  · intro fips wk body req h
    simp only [forecastRequest] at h
    rcases hcw : currentWeek wk (body.toItems.map weekOf) with _ | cw
    · rw [hcw] at h; cases h
    · rw [hcw] at h; cases h; rfl

/-- C4, witness: on the week-5 one-entry timeseries with no week parameter the
amended theorem determines `current_week` as the maximum observed week, 5. -/
theorem C4_witness :
    maxWeek (tsWeekFive.toItems.map weekOf) = some 5 :=
  C4_week_filter_amended.2.2.1 "19001" tsWeekFive
    { fips := "19001", current_week := 5, year := 2025
      raw_data := buildRawData (tsWeekFive.toItems.filter (fun item => weekOf item ≤ 5)) } rfl

/-! ## Claim C10 — empty timeseries with no week parameter -/

/-- C10: when the timeseries response parses to an empty JSON list and the caller
supplies no week parameter, the endpoint surfaces HTTP 500 whose detail is the text
of the `ValueError` that `max()` raises on an empty sequence (`emptyMax`), and the
forecasting collaborator is never consulted: the outcome is identical for every
state of the forecast addresses. -/
theorem C10_empty_timeseries (fips : String) (tsl : UpstreamResult TsBody)
    (fp1 fl1 fp2 fl2 : UpstreamResult ForecastBody) :
    get_yield_forecast fips none ⟨.response 200 (some (.array [])), tsl, fp1, fl1⟩ =
        .httpError 500 .emptyMax ∧
    get_yield_forecast fips none ⟨.response 200 (some (.array [])), tsl, fp1, fl1⟩ =
      get_yield_forecast fips none ⟨.response 200 (some (.array [])), tsl, fp2, fl2⟩ := by
  exact ⟨rfl, rfl⟩

/-! ## Claim C5 — raw_data schema and defaults -/

theorem dictFind_dictInsert_self (d : List (String × RawEntry)) (k : String) (v : RawEntry) :
    dictFind (dictInsert d k v) k = some v := by
  induction d with
  | nil => simp [dictInsert, dictFind]
  | cons p rest ih =>
    by_cases hp : p.1 = k
    · simp [dictInsert, hp, dictFind]
    · simp [dictInsert, hp, dictFind, ih]

theorem dictFind_dictInsert_ne (d : List (String × RawEntry)) (k : String) (v : RawEntry)
    (k' : String) (h : k' ≠ k) :
    dictFind (dictInsert d k v) k' = dictFind d k' := by
  have h' : ¬(k = k') := fun hk => h hk.symm
  induction d with
  | nil => simp [dictInsert, dictFind, h']
  | cons p rest ih =>
    by_cases hp : p.1 = k
    · simp [dictInsert, hp, dictFind, h']
    · simp [dictInsert, hp, dictFind, ih]

theorem foldl_rawStep_of_absent (items : List TsItem) :
    ∀ (d : List (String × RawEntry)) (k : String),
      (∀ item ∈ items, toString (weekOf item) ≠ k) →
      dictFind (items.foldl rawStep d) k = dictFind d k := by
  induction items with
  | nil => intro d k _; rfl
  | cons it rest ih =>
    intro d k h
    have h1 : toString (weekOf it) ≠ k := h it (by simp)
    have h2 : ∀ item ∈ rest, toString (weekOf item) ≠ k := fun i hi => h i (by simp [hi])
    calc dictFind ((it :: rest).foldl rawStep d) k
        = dictFind (rest.foldl rawStep (rawStep d it)) k := rfl
      _ = dictFind (rawStep d it) k := ih _ _ h2
      _ = dictFind d k := dictFind_dictInsert_ne _ _ _ _ (fun hk => h1 hk.symm)

theorem foldl_rawStep_of_present (items : List TsItem) :
    ∀ (d : List (String × RawEntry)) (k : String),
      (∃ item ∈ items, toString (weekOf item) = k) →
      ∃ item', item' ∈ items ∧ toString (weekOf item') = k ∧
        dictFind (items.foldl rawStep d) k = some (rawEntry item') := by
  induction items with
  | nil => intro d k h; simp at h
  | cons it rest ih =>
    intro d k h
    by_cases hr : ∃ item ∈ rest, toString (weekOf item) = k
    · obtain ⟨it', hmem, hkey, hfind⟩ := ih (rawStep d it) k hr
      exact ⟨it', by simp [hmem], hkey, hfind⟩
    · have hit : toString (weekOf it) = k := by
        obtain ⟨i, hi, hk⟩ := h
        rcases List.mem_cons.mp hi with rfl | hi'
        · exact hk
        · exact absurd ⟨i, hi', hk⟩ hr
      have hnone : ∀ item ∈ rest, toString (weekOf item) ≠ k := by
        intro i hi hk
        exact hr ⟨i, hi, hk⟩
      refine ⟨it, by simp, hit, ?_⟩
      calc dictFind ((it :: rest).foldl rawStep d) k
          = dictFind (rest.foldl rawStep (rawStep d it)) k := rfl
        _ = dictFind (rawStep d it) k := foldl_rawStep_of_absent rest _ k hnone
        _ = some (rawEntry it) := by rw [← hit]; exact dictFind_dictInsert_self _ _ _

theorem foldl_rawStep_find_source (items : List TsItem) :
    ∀ (d : List (String × RawEntry)) (k : String) (e : RawEntry),
      dictFind (items.foldl rawStep d) k = some e →
      (∃ item ∈ items, toString (weekOf item) = k ∧ e = rawEntry item) ∨ dictFind d k = some e := by
  induction items with
  | nil => intro d k e h; exact Or.inr h
  | cons it rest ih =>
    intro d k e h
    rcases ih (rawStep d it) k e h with hrest | hstep
    · obtain ⟨i, hi, hk, he⟩ := hrest
      exact Or.inl ⟨i, by simp [hi], hk, he⟩
    · by_cases hk : toString (weekOf it) = k
      · left
        refine ⟨it, by simp, hk, ?_⟩
        rw [rawStep, hk, dictFind_dictInsert_self] at hstep
        exact (Option.some.injEq _ _ ▸ hstep).symm
      · right
        rw [rawStep, dictFind_dictInsert_ne _ _ _ _ (fun hk' => hk hk'.symm)] at hstep
        exact hstep

/-- C5: every entry of the `raw_data` mapping keyed by a week-of-season string (1)
exists for each filtered item's week and (2) originates from an item of the filtered
timeseries, and (3) each entry carries all five sub-fields with the documented
substitutions: `dict.get` defaults of 0 for the water-deficit,
vapor-pressure-deficit and precipitation means, 0.5 for the vegetation-index mean,
and the "heat-day" count equal to Python's `int()` cast of the defaulted
land-surface-temperature mean. -/
theorem C5_raw_data_schema (items : List TsItem) :
    (∀ item ∈ items, ∃ item', item' ∈ items ∧
      toString (weekOf item') = toString (weekOf item) ∧
      dictFind (buildRawData items) (toString (weekOf item)) = some (rawEntry item')) ∧
    (∀ k e, dictFind (buildRawData items) k = some e →
      ∃ item ∈ items, toString (weekOf item) = k ∧ e = rawEntry item) ∧
    (∀ item : TsItem,
      (rawEntry item).water_deficit_mean =
        (item.indicators.getD Indicators.empty).water_deficit_mean.getD 0 ∧
      (rawEntry item).lst_days_above_32C =
        pyInt ((item.indicators.getD Indicators.empty).lst_mean.getD 0) ∧
      (rawEntry item).ndvi_mean = (item.indicators.getD Indicators.empty).ndvi_mean.getD (1/2) ∧
      (rawEntry item).vpd_mean = (item.indicators.getD Indicators.empty).vpd_mean.getD 0 ∧
      (rawEntry item).pr_sum =
        (item.indicators.getD Indicators.empty).precipitation_mean.getD 0) := by
  refine ⟨?_, ?_, fun item => ⟨rfl, rfl, rfl, rfl, rfl⟩⟩
  · intro item hmem
    exact foldl_rawStep_of_present items [] _ ⟨item, hmem, rfl⟩
  · intro k e h
    rcases foldl_rawStep_find_source items [] k e h with hsrc | hnil
    · exact hsrc
    · cases hnil

/-- C5, witness: on the singleton timeseries containing the week-3 entry, the
theorem produces its `raw_data` entry at key `"3"`. -/
theorem C5_witness :
    ∃ item', item' ∈ [itemWeekThree] ∧
      toString (weekOf item') = toString (weekOf itemWeekThree) ∧
      dictFind (buildRawData [itemWeekThree]) (toString (weekOf itemWeekThree)) =
        some (rawEntry item') :=
  (C5_raw_data_schema [itemWeekThree]).1 itemWeekThree (by simp)

/-! ## Claim C6 — response assembly defaults -/

/-- C6: the final assembly step is a total function of the forecast payload — it
never fails on missing optional fields — and merges the forecast fields with the
fixed fallbacks 0.31 for the uncertainty field and 0.835 for the model-quality
field, applied exactly when the corresponding field is absent; and every success
result of the endpoint is produced by this assembly step. -/
theorem C6_assembly_defaults (fips : String) (cw : Int) (y : ForecastBody) :
    (assembleResponse fips cw y).confidence_interval = y.forecast_uncertainty.getD (31/100) ∧
    (assembleResponse fips cw y).model_r2 = y.model_r2.getD (167/200) ∧
    (assembleResponse fips cw { y with forecast_uncertainty := none }).confidence_interval
      = 31/100 ∧
    (∀ v, (assembleResponse fips cw { y with forecast_uncertainty := some v }).confidence_interval
      = v) ∧
    (assembleResponse fips cw { y with model_r2 := none }).model_r2 = 167/200 ∧
    (∀ v, (assembleResponse fips cw { y with model_r2 := some v }).model_r2 = v) ∧
    (∀ f wk w r, get_yield_forecast f wk w = .ok r → ∃ cw' y', r = assembleResponse f cw' y') := by
  refine ⟨rfl, rfl, rfl, fun v => rfl, rfl, fun v => rfl, ?_⟩
  intro f wk w r h
  unfold get_yield_forecast at h
  split at h
  · cases h
  · split at h
    · split at h
      · cases h
      · split at h
        · cases h
        · split at h
          · cases h
          · split at h
            · split at h
              · cases h
              · cases h
                exact ⟨_, _, rfl⟩
            · cases h
    · cases h

/-- C6, witness: the all-success world whose forecast payload omits every optional
field produces a response, and the theorem exhibits it as an output of the
assembly step. -/
theorem C6_witness :
    ∃ cw' y', assembleResponse "19001" 5 emptyForecastBody = assembleResponse "19001" cw' y' :=
  (C6_assembly_defaults "19001" 5 emptyForecastBody).2.2.2.2.2.2 "19001" none worldAllOk
    (assembleResponse "19001" 5 emptyForecastBody) rfl

/-! ## Claim C7 — water-stress policy -/

theorem water_stress_false_eq (d : Rat) :
    calculate_water_stress d false =
      if d < 0 then 0 else if d < 2 then 20 else if d ≤ 4 then 50 else if d < 6 then 75 else 100 :=
  rfl

/-- C7: the water-stress calculator is the exact piecewise function of the deficit
in millimeters — `< 0 → 0`, `[0,2) → 20`, `[2,4] → 50`, `(4,6) → 75`, `≥ 6 → 100` —
and during pollination the result is the non-pollination value multiplied by 1.5
and clamped to 100, so the two values keep the exact 1.5 factor whenever the scaled
value stays below the clamp.  (The factor is stated multiplicatively; as a ratio it
is 1.5 at every deficit with a nonzero non-pollination value below the clamp.) -/
theorem C7_water_stress_policy (d : Rat) :
    (d < 0 → calculate_water_stress d false = 0) ∧
    (0 ≤ d → d < 2 → calculate_water_stress d false = 20) ∧
    (2 ≤ d → d ≤ 4 → calculate_water_stress d false = 50) ∧
    (4 < d → d < 6 → calculate_water_stress d false = 75) ∧
    (6 ≤ d → calculate_water_stress d false = 100) ∧
    calculate_water_stress d true = min (calculate_water_stress d false * (3/2)) 100 ∧
    (calculate_water_stress d false * (3/2) ≤ 100 →
      calculate_water_stress d true = calculate_water_stress d false * (3/2)) := by
  refine ⟨?_, ?_, ?_, ?_, ?_, rfl, fun hcl => min_eq_left hcl⟩ <;>
    rw [water_stress_false_eq] <;> intros <;> split_ifs <;> first | rfl | linarith

/-- C7, witness: at a deficit of 3 mm the policy gives 50 without the pollination
multiplier and 75 (= 50 x 1.5, below the clamp) with it. -/
theorem C7_witness :
    calculate_water_stress 3 false = 50 ∧
    calculate_water_stress 3 true = calculate_water_stress 3 false * (3/2) := by
  have h := C7_water_stress_policy 3
  exact ⟨h.2.2.1 (by norm_num) (by norm_num), h.2.2.2.2.2.2 (by
    rw [h.2.2.1 (by norm_num) (by norm_num)]; norm_num)⟩

/-! ## Claim C8 — composite weighting -/

/-- C8: for components inside `[0,100]` the composite stress index is exactly the
weighted sum with weights water 0.40, heat 0.30, vegetation 0.20, atmospheric 0.10;
in particular the all-zero input gives 0, the all-100 input gives 100, raising
water from 50 to 100 with the others fixed raises the composite by exactly
0.40 x 50 = 20, and the four weights sum to 1. -/
theorem C8_composite_weights (w h v a : Rat)
    (hw0 : 0 ≤ w) (hw1 : w ≤ 100) (hh0 : 0 ≤ h) (hh1 : h ≤ 100)
    (hv0 : 0 ≤ v) (hv1 : v ≤ 100) (ha0 : 0 ≤ a) (ha1 : a ≤ 100) :
    calculate_mcsi w h v a = (2/5) * w + (3/10) * h + (1/5) * v + (1/10) * a ∧
    calculate_mcsi 0 0 0 0 = 0 ∧
    calculate_mcsi 100 100 100 100 = 100 ∧
    calculate_mcsi 100 50 50 50 - calculate_mcsi 50 50 50 50 = 20 ∧
    ((2 : Rat)/5) + 3/10 + 1/5 + 1/10 = 1 := by
  have hc : ∀ x : Rat, 0 ≤ x → x ≤ 100 → clampScore x = x := by
    intro x h0 h1
    unfold clampScore
    rw [min_eq_right h1, max_eq_right h0]
  refine ⟨?_, ?_, ?_, ?_, by norm_num⟩
  · unfold calculate_mcsi
    rw [hc w hw0 hw1, hc h hh0 hh1, hc v hv0 hv1, hc a ha0 ha1]
  · norm_num [calculate_mcsi, clampScore]
  · norm_num [calculate_mcsi, clampScore]
  · norm_num [calculate_mcsi, clampScore]

/-- C8, witness: the weighted sum at components (80, 60, 40, 20) evaluates to 60. -/
theorem C8_witness : calculate_mcsi 80 60 40 20 = 60 := by
  have h := (C8_composite_weights 80 60 40 20 (by norm_num) (by norm_num) (by norm_num)
    (by norm_num) (by norm_num) (by norm_num) (by norm_num) (by norm_num)).1
  rw [h]
  norm_num

/-! ## Claim C9 — retrieval context builder -/

/-- C9: when the retrieval collaborator honours the `n_results=5` bound of the
query, the built context list contains at most five snippets; each snippet is the
corresponding retrieved document truncated to the 500-character budget (hence at
most 500 characters long) and carries the similarity score `1 - distance`. -/
theorem C9_retrieval_contexts (documents : List (List Char)) (distances : List Rat)
    (hlen : documents.length ≤ snippetLimit) :
    (chatContexts documents distances).length ≤ snippetLimit ∧
    ∀ c ∈ chatContexts documents distances,
      c.text.length ≤ snippetBudget ∧
      ∃ d dist, (d, dist) ∈ documents.zip distances ∧
        c.text = d.take snippetBudget ∧ c.score = 1 - dist := by
  constructor
  · unfold chatContexts
    rw [List.length_map, List.length_zip]
    exact le_trans (min_le_left _ _) hlen
  · intro c hc
    unfold chatContexts at hc
    obtain ⟨⟨d, dist⟩, hmem, hce⟩ := List.mem_map.mp hc
    subst hce
    refine ⟨?_, d, dist, hmem, rfl, rfl⟩
    show (d.take snippetBudget).length ≤ snippetBudget
    rw [List.length_take]
    exact min_le_left _ _

/-- C9, witness: a single retrieved document at distance 0 yields at most five
snippets. -/
theorem C9_witness : (chatContexts ["corn stress".data] [0]).length ≤ snippetLimit :=
  (C9_retrieval_contexts ["corn stress".data] [0] (by simp [snippetLimit])).1

end AgriGuard
